import Mathlib

/-!
# Verification of the `economia` dashboard's data pipeline

Shallow embedding of the data model and operations of
`ibge_data_fetcher.py` and `frontend_app.py`:

* CSV row types for the two sector tables and the auxiliary FGTS table;
* `_process_employment_data` (sentinel filtering and year sorting of the
  raw IBGE payload);
* `get_informality_rate_data` (synthesized informality rates with the
  per-sector clamp);
* `update_local_data` (the refresh that rewrites the two `_updated`
  files), with explicit fault-injection points mirroring where the
  Python `try`/`except` can be entered;
* `load_data` and `filter_data` from the frontend;
* the rolling-average derivation used by `show_juros_financiamento`;
* a spec-modelled `fetch_bcb_data` (imported by `frontend_app.py` but
  not defined in the repository sources).

Numbers are modelled as exact rationals (`ℚ`); Python's `round(x, 1)`
is modelled as round-half-to-even at one decimal digit.
-/

namespace Economia

/-! ## Small parsing helpers (Python `int`/`float` coercions)

`int(s)` and `float(s)` in the source are applied to period labels such
as `"2024"` and to numeric strings such as `"7,1"` (after the comma is
replaced by a dot).  We model the core grammar: an optional minus sign,
digits, and for floats an optional fractional part. -/

/-- Value of a decimal digit character, `none` for non-digits. -/
def digitVal (c : Char) : Option ℕ :=
  if '0' ≤ c ∧ c ≤ '9' then some (c.toNat - 48) else none

/-- Parse a nonempty all-digit character list as a natural number. -/
def parseNatCore (cs : List Char) : Option ℕ :=
  if cs.isEmpty then none
  else
    cs.foldl
      (fun acc c =>
        match acc, digitVal c with
        | some n, some d => some (n * 10 + d)
        | _, _ => none)
      (some 0)

/-- Parse a string of digits as a natural number (Python `int` on a
nonnegative literal). -/
def parseNatStr (s : String) : Option ℕ :=
  parseNatCore s.toList

/-- Python `int(s)`: optional minus sign followed by digits. -/
def parseInt (s : String) : Option ℤ :=
  match s.toList with
  | '-' :: rest => (parseNatCore rest).map (fun n => -(n : ℤ))
  | cs => (parseNatCore cs).map (fun n => (n : ℤ))

/-- Split a character list at every occurrence of the separator
(`str.split(sep)` semantics for a one-character separator). -/
def splitOnChar (sep : Char) : List Char → List (List Char)
  | [] => [[]]
  | c :: rest =>
    if c = sep then [] :: splitOnChar sep rest
    else
      match splitOnChar sep rest with
      | [] => [[c]]
      | h :: t => (c :: h) :: t

/-- Python `float(s)`: optional minus sign, then digits with an optional
`.` and fractional digits (at least one digit overall). -/
def parseFloat (s : String) : Option ℚ :=
  let (neg, body) : Bool × List Char :=
    match s.toList with
    | '-' :: rest => (true, rest)
    | cs => (false, cs)
  let signed : ℚ → ℚ := fun q => if neg then -q else q
  match splitOnChar '.' body with
  | [ip] => (parseNatCore ip).map (fun n => signed n)
  | [ip, fp] =>
    match parseNatCore ip, parseNatCore fp with
    | some n, some f => some (signed (n + (f : ℚ) / (10 ^ fp.length)))
    | some n, none => if fp.isEmpty then some (signed n) else none
    | none, some f =>
      if ip.isEmpty then some (signed ((f : ℚ) / (10 ^ fp.length))) else none
    | none, none => none
  | _ => none

/-- `s.replace(',', '.')`: the single-character replacement used before
`float(..)` in the source. -/
def commaToDot (s : String) : String :=
  ⟨s.toList.map fun c => if c = ',' then '.' else c⟩

/-- Python `round(x, 1)` (round half to even) on exact rationals:
the integer nearest to `q * 10`, ties going to the even integer. -/
def roundHalfEven (q : ℚ) : ℤ :=
  let f := ⌊q⌋
  let r := q - f
  if r < 1 / 2 then f
  else if (1 : ℚ) / 2 < r then f + 1
  else if f % 2 = 0 then f else f + 1

/-- `round(x, 1)` from the source, at one decimal digit. -/
def round1 (q : ℚ) : ℚ := (roundHalfEven (q * 10) : ℚ) / 10

/-! ## Raw IBGE payload and `_process_employment_data`

The JSON payload of the aggregates API is a list of items, each with an
optional `resultados` list, whose elements have an optional `series`
list; every series has a `localidade` name and a `serie` mapping of
period labels to values.  A value is either a JSON string, a number, or
null. -/

/-- A raw JSON value sitting in a `serie` map: string, number or null. -/
inductive PyVal where
  | str (s : String)
  | num (q : ℚ)
  | null
  deriving DecidableEq

/-- Python truthiness of a raw value (`if valor ...` in the source):
null, the empty string and numeric zero are falsy. -/
def pyTruthy : PyVal → Bool
  | .null => false
  | .str s => !s.isEmpty
  | .num q => q != 0

/-- `float(valor.replace(',', '.'))` for strings, `float(valor)` for
numbers; fails (raises in Python) on null. -/
def pyFloat : PyVal → Option ℚ
  | .str s => parseFloat (commaToDot s)
  | .num q => some q
  | .null => none

/-- One series of the aggregates payload: `localidade.nome` (defaulted
to `"Brasil"` by the source) and the `serie` period→value map. -/
structure Serie where
  localidade : String
  serie : List (String × PyVal)

/-- One `resultados` element; `series` is absent when the key is
missing (`if 'series' in resultado`). -/
structure Resultado where
  series : Option (List Serie)

/-- One top-level payload item; `resultados` is absent when the key is
missing (`if 'resultados' in item`). -/
structure Item where
  resultados : Option (List Resultado)

/-- A processed row of `_process_employment_data`. -/
structure ProcessedRow where
  Ano : ℤ
  Localidade : String
  Setor : String
  Valor : ℚ
  Periodo : String
  deriving DecidableEq

/-- Ascending-year order on processed rows (`df.sort_values('Ano')`). -/
def rowLe (r s : ProcessedRow) : Prop := r.Ano ≤ s.Ano

instance : DecidableRel rowLe := fun r s => inferInstanceAs (Decidable (r.Ano ≤ s.Ano))

instance : IsTotal ProcessedRow rowLe := ⟨fun a b => le_total a.Ano b.Ano⟩

instance : IsTrans ProcessedRow rowLe := ⟨fun _ _ _ h h' => le_trans h h'⟩

/-- All `(periodo, valor)` pairs reachable in a payload, in source
iteration order (`item.resultados`, then `resultado.series`, then
`serie.serie`). -/
def allEntries (raw : List Item) : List (String × PyVal) :=
  raw.flatMap fun item =>
    (item.resultados.getD []).flatMap fun r =>
      (r.series.getD []).flatMap fun s => s.serie

/-- `_process_employment_data(raw_data, sector_code)`: walk the nested
payload; keep a `(periodo, valor)` pair only when `valor` is truthy and
differs from the sentinels `"..."` and `"-"`, `int(periodo[:4])` parses
and the value coerces to a float (a `ValueError`/`TypeError` skips the
pair); finally sort the rows by `Ano`. -/
def _process_employment_data (raw : List Item) (sector_code : String) :
    List ProcessedRow :=
  let rows : List ProcessedRow :=
    raw.flatMap fun item =>
      (item.resultados.getD []).flatMap fun r =>
        (r.series.getD []).flatMap fun s =>
          s.serie.filterMap fun pv =>
            if pyTruthy pv.2 = true ∧ pv.2 ≠ PyVal.str "..." ∧ pv.2 ≠ PyVal.str "-" then
              match parseInt ((pv.1).take 4), pyFloat pv.2 with
              | some ano, some v =>
                some ⟨ano, s.localidade, sector_code, v, pv.1⟩
              | _, _ => none
            else none
  List.insertionSort rowLe rows

/-! ## `get_informality_rate_data` -/

/-- A row of the simulated informality-rate table. -/
structure InfRow where
  Ano : ℕ
  Setor : String
  Taxa_Informalidade : ℚ
  deriving DecidableEq

/-- Synthesized construction informality rate before storage:
`min(53.8 + (year - 2014) * 0.5 + (year % 2) * 2, 65)`. -/
def construcao_rate (year : ℕ) : ℚ :=
  min (53.8 + ((year : ℚ) - 2014) * 0.5 + ((year % 2 : ℕ) : ℚ) * 2) 65

/-- Synthesized real-estate informality rate before storage:
`max(42.1 + (year - 2014) * 0.2 - (year % 3) * 1, 35)`. -/
def imobiliarias_rate (year : ℕ) : ℚ :=
  max (42.1 + ((year : ℚ) - 2014) * 0.2 - ((year % 3 : ℕ) : ℚ) * 1) 35

/-- `get_informality_rate_data()`: one construction row and one
real-estate row for every year in `range(2014, current_year + 1)`,
construction rows first (the two per-sector lists are concatenated). -/
def get_informality_rate_data (current_year : ℕ) : List InfRow :=
  let years := List.range' 2014 (current_year + 1 - 2014)
  (years.map fun y => ⟨y, "Construção Civil", construcao_rate y⟩) ++
    (years.map fun y => ⟨y, "Atividades Imobiliárias", imobiliarias_rate y⟩)

/-! ## `update_local_data` -/

/-- One row of a sector CSV table (`tabela1_construcao_civil*.csv` /
`tabela2_atividades_imobiliarias*.csv`). -/
structure SectorRow where
  Ano : ℕ
  total_ocupados : ℚ
  com_carteira : ℚ
  sem_carteira : ℚ
  conta_propria : ℚ
  saldo_formal : ℚ
  taxa_informalidade : ℚ
  deriving DecidableEq

/-- Construction total occupied: `7.0 + (year - 2014) * 0.1`. -/
def construcao_total_ocupados (year : ℕ) : ℚ :=
  7.0 + ((year : ℚ) - 2014) * 0.1

/-- Construction employed with contract:
`total * (1 - taxa/100) * 0.6`. -/
def construcao_com_carteira (year : ℕ) (taxa : ℚ) : ℚ :=
  construcao_total_ocupados year * (1 - taxa / 100) * 0.6

/-- Construction employed without contract: `total * (taxa/100) * 0.4`. -/
def construcao_sem_carteira (year : ℕ) (taxa : ℚ) : ℚ :=
  construcao_total_ocupados year * (taxa / 100) * 0.4

/-- Construction self-employed:
`total - com_carteira - sem_carteira`. -/
def construcao_conta_propria (year : ℕ) (taxa : ℚ) : ℚ :=
  construcao_total_ocupados year - construcao_com_carteira year taxa -
    construcao_sem_carteira year taxa

/-- Real-estate total occupied: `1.9 + (year - 2014) * 0.05`. -/
def imobiliarias_total_ocupados (year : ℕ) : ℚ :=
  1.9 + ((year : ℚ) - 2014) * 0.05

/-- Real-estate employed with contract: `total * (1 - taxa/100) * 0.7`. -/
def imobiliarias_com_carteira (year : ℕ) (taxa : ℚ) : ℚ :=
  imobiliarias_total_ocupados year * (1 - taxa / 100) * 0.7

/-- Real-estate employed without contract: `total * (taxa/100) * 0.3`. -/
def imobiliarias_sem_carteira (year : ℕ) (taxa : ℚ) : ℚ :=
  imobiliarias_total_ocupados year * (taxa / 100) * 0.3

/-- Real-estate self-employed: `total - com_carteira - sem_carteira`. -/
def imobiliarias_conta_propria (year : ℕ) (taxa : ℚ) : ℚ :=
  imobiliarias_total_ocupados year - imobiliarias_com_carteira year taxa -
    imobiliarias_sem_carteira year taxa

/-- One synthesized construction row of `update_local_data`, with every
numeric field passed through `round(.., 1)`. -/
def construcao_complete_row (year : ℕ) (taxa : ℚ) : SectorRow where
  Ano := year
  total_ocupados := round1 (construcao_total_ocupados year)
  com_carteira := round1 (construcao_com_carteira year taxa)
  sem_carteira := round1 (construcao_sem_carteira year taxa)
  conta_propria := round1 (construcao_conta_propria year taxa)
  saldo_formal := round1 (((year : ℚ) - 2020) * 50 + 100)
  taxa_informalidade := round1 taxa

/-- One synthesized real-estate row of `update_local_data`. -/
def imobiliarias_complete_row (year : ℕ) (taxa : ℚ) : SectorRow where
  Ano := year
  total_ocupados := round1 (imobiliarias_total_ocupados year)
  com_carteira := round1 (imobiliarias_com_carteira year taxa)
  sem_carteira := round1 (imobiliarias_sem_carteira year taxa)
  conta_propria := round1 (imobiliarias_conta_propria year taxa)
  saldo_formal := round1 (((year : ℚ) - 2020) * 20 + 30)
  taxa_informalidade := round1 taxa

/-- The construction table computed by `update_local_data`: the
informality rows filtered to `Setor == 'Construção Civil'`, one sector
row per remaining informality row. -/
def update_construcao_rows (current_year : ℕ) : List SectorRow :=
  ((get_informality_rate_data current_year).filter
      (fun r => r.Setor == "Construção Civil")).map
    (fun r => construcao_complete_row r.Ano r.Taxa_Informalidade)

/-- The real-estate table computed by `update_local_data`: the
informality rows filtered to `Setor == 'Atividades Imobiliárias'`. -/
def update_imobiliarias_rows (current_year : ℕ) : List SectorRow :=
  ((get_informality_rate_data current_year).filter
      (fun r => r.Setor == "Atividades Imobiliárias")).map
    (fun r => imobiliarias_complete_row r.Ano r.Taxa_Informalidade)

/-- The flat files the program reads and writes, named after the CSV
files; `none` means the file does not exist. -/
structure FS where
  tabela1_construcao_civil : Option (List SectorRow)
  tabela2_atividades_imobiliarias : Option (List SectorRow)
  tabela1_construcao_civil_updated : Option (List SectorRow)
  tabela2_atividades_imobiliarias_updated : Option (List SectorRow)
  fgts_arrecadacao : Option (List (ℕ × ℚ))
  deriving DecidableEq

/-- Where an exception can interrupt `update_local_data`.  The body is
one `try` block whose only store effects are the two `to_csv` calls, in
order; the `except` clause returns `False`.  `beforeWrites` covers any
failure raised before the first `to_csv` (network fetch, normalization,
DataFrame construction); `atWrite1` a failure of the first `to_csv`
before it replaces its file; `atWrite2` a failure of the second
`to_csv` after the first completed. -/
inductive FailPoint where
  | noFail
  | beforeWrites
  | atWrite1
  | atWrite2
  deriving DecidableEq

/-- `update_local_data(save_path)`: fetch the informality table; if it
is empty return `False` without writing; otherwise write the
construction `_updated` file and then the real-estate `_updated` file
and return `True`.  Any exception is caught and turns the call into a
`False` return, with exactly the writes that had already completed. -/
def update_local_data (fs : FS) (current_year : ℕ) (fp : FailPoint) :
    FS × Bool :=
  match fp with
  | .beforeWrites => (fs, false)
  | .atWrite1 =>
    if (get_informality_rate_data current_year).isEmpty then (fs, false)
    else (fs, false)
  | .atWrite2 =>
    if (get_informality_rate_data current_year).isEmpty then (fs, false)
    else
      ({ fs with
          tabela1_construcao_civil_updated :=
            some (update_construcao_rows current_year) },
        false)
  | .noFail =>
    if (get_informality_rate_data current_year).isEmpty then (fs, false)
    else
      ({ fs with
          tabela1_construcao_civil_updated :=
            some (update_construcao_rows current_year)
          tabela2_atividades_imobiliarias_updated :=
            some (update_imobiliarias_rows current_year) },
        true)

/-! ## `load_data`, `filter_data` and the FGTS join -/

/-- `load_data(use_updated)`: read the two sector files of the selected
variant; a missing sector file makes the whole load fail (`none`, the
`MissingDatasetError` path returning no tables); a missing FGTS file is
tolerated and yields `none` in the third component. -/
def load_data (fs : FS) (use_updated : Bool) :
    Option (List SectorRow × List SectorRow × Option (List (ℕ × ℚ)) × Bool) :=
  let dfc := if use_updated then fs.tabela1_construcao_civil_updated
             else fs.tabela1_construcao_civil
  let dfi := if use_updated then fs.tabela2_atividades_imobiliarias_updated
             else fs.tabela2_atividades_imobiliarias
  match dfc, dfi with
  | some c, some i => some (c, i, fs.fgts_arrecadacao, use_updated)
  | _, _ => none

/-- `filter_data(df_construcao, df_imobiliarias, anos_selecionados)`:
keep the rows whose `Ano` lies in the inclusive selected range, in both
tables. -/
def filter_data (df_construcao df_imobiliarias : List SectorRow)
    (lo hi : ℕ) : List SectorRow × List SectorRow :=
  (df_construcao.filter (fun r => lo ≤ r.Ano ∧ r.Ano ≤ hi),
    df_imobiliarias.filter (fun r => lo ≤ r.Ano ∧ r.Ano ≤ hi))

/-- The combined table of `show_pj_informal_fgts_impact`: each
construction row paired with its informal/PJ total
(`Conta Própria + Empregados sem Carteira`), and - only when the FGTS
table was loaded - a left-joined FGTS column (per construction row, the
collection amount of the first FGTS row with the same year). -/
def pj_informal_combined (df_construcao : List SectorRow)
    (df_fgts : Option (List (ℕ × ℚ))) :
    List (SectorRow × ℚ) × Option (List (Option ℚ)) :=
  let base := df_construcao.map fun r => (r, r.conta_propria + r.sem_carteira)
  match df_fgts with
  | none => (base, none)
  | some fg =>
    (base,
      some (df_construcao.map fun r =>
        (fg.find? (fun f => f.1 == r.Ano)).map (·.2)))

/-! ## Rolling average (`show_juros_financiamento`) -/

/-- `series.rolling(window=w).mean()`: at position `i` (0-based), the
mean of the trailing `w` values when at least `w` observations are
available, undefined (`NaN`, modelled `none`) otherwise. -/
def rolling_mean (w : ℕ) (xs : List ℚ) : List (Option ℚ) :=
  (List.range xs.length).map fun i =>
    if w ≤ i + 1 then
      some ((((xs.take (i + 1)).drop (i + 1 - w)).sum) / w)
    else none

/-! ## `fetch_bcb_data` (modelled from the spec)

`frontend_app.py` imports `fetch_bcb_data` from `ibge_data_fetcher`,
but the repository's `ibge_data_fetcher.py` does not define it; only
its callers exist in the sources. -/

/-- The two failure kinds of the remote data client. -/
inductive BCBError where
  | NetworkError
  | ParseError
  deriving DecidableEq

/-- A calendar date parsed from a `dd/mm/yyyy` label. -/
structure BCBDate where
  dia : ℕ
  mes : ℕ
  ano : ℕ
  deriving DecidableEq

/-- Chronological sort key of a date. -/
def dateKey (d : BCBDate) : ℕ := (d.ano * 100 + d.mes) * 100 + d.dia

/-- Coerce a `dd/mm/yyyy` string to a calendar date; fails on malformed
strings or out-of-range day/month. -/
def parseDate (s : String) : Option BCBDate :=
  match splitOnChar '/' s.toList with
  | [d, m, y] =>
    match parseNatCore d, parseNatCore m, parseNatCore y with
    | some dd, some mm, some yy =>
      if 1 ≤ dd ∧ dd ≤ 31 ∧ 1 ≤ mm ∧ mm ≤ 12 then some ⟨dd, mm, yy⟩
      else none
    | _, _, _ => none
  | _ => none

/-- One raw `{data, valor}` object of the central-bank response. -/
structure BCBRaw where
  data : String
  valor : String
  deriving DecidableEq

/-- One observation of the resulting interest-rate table. -/
structure BCBObs where
  data : BCBDate
  valor : ℚ
  deriving DecidableEq

/-- Date order on observations. -/
def obsLe (a b : BCBObs) : Prop := dateKey a.data ≤ dateKey b.data

instance : DecidableRel obsLe := fun a b =>
  inferInstanceAs (Decidable (dateKey a.data ≤ dateKey b.data))

instance : IsTotal BCBObs obsLe := ⟨fun a b => le_total (dateKey a.data) (dateKey b.data)⟩

instance : IsTrans BCBObs obsLe := ⟨fun _ _ _ h h' => le_trans h h'⟩

/-- Coerce one raw pair: `data` to a calendar date, `valor` to a
number. -/
def parseBCBEntry (e : BCBRaw) : Option BCBObs :=
  (parseDate e.data).bind fun d => (parseFloat e.valor).map fun v => ⟨d, v⟩

/-- Parse every raw pair; any malformed pair fails the whole parse. -/
def parseBCBEntries : List BCBRaw → Option (List BCBObs)
  | [] => some []
  | e :: es =>
    match parseBCBEntry e, parseBCBEntries es with
    | some o, some os => some (o :: os)
    | _, _ => none

/-- Modelled from the spec: `fetch_bcb_data` is imported from
`ibge_data_fetcher` by `frontend_app.py` but missing from the
repository sources.  Per the spec it fetches a single named series from
the central-bank endpoint (`none` input models a network failure),
parses the `date`/`value` pairs, coercing `date` to a calendar date and
`value` to a floating point number, and returns a table indexed by date
and ordered by date; it fails only with `NetworkError` or
`ParseError`. -/
def fetch_bcb_data (response : Option (List BCBRaw)) :
    Except BCBError (List BCBObs) :=
  match response with
  | none => .error .NetworkError
  | some entries =>
    match parseBCBEntries entries with
    | none => .error .ParseError
    | some obs => .ok (List.insertionSort obsLe obs)

/-! ## Concrete sample data used by witnesses -/

/-- An empty store: no sector file, no `_updated` file, no FGTS file. -/
def fs₀ : FS := ⟨none, none, none, none, none⟩

/-- A concrete 12-point series. -/
def xs12 : List ℚ := [1, 2, 3, 4, 5, 6, 7, 8, 9, 10, 11, 12]

/-- A concrete payload whose only entries for 2020 and 2021 are the
sentinels. -/
def rawSample : List Item :=
  [⟨some [⟨some [⟨"Brasil",
    [("2020", PyVal.str "..."), ("2021", PyVal.str "-")]⟩]⟩]⟩]

/-- Two raw central-bank entries, deliberately out of date order. -/
def bcbSample : List BCBRaw := [⟨"01/02/2021", "2"⟩, ⟨"15/01/2021", "3"⟩]

/-- The table `fetch_bcb_data` produces from `bcbSample`. -/
def bcbSorted : List BCBObs := [⟨⟨15, 1, 2021⟩, 3⟩, ⟨⟨1, 2, 2021⟩, 2⟩]

/-! ## Shared helper facts -/

/-- The informality table is never empty once the synthesized year
range is nonempty. -/
theorem get_informality_rate_data_ne_nil (current_year : ℕ)
    (h : 2014 ≤ current_year) :
    (get_informality_rate_data current_year).isEmpty = false := by
  have hlen : (get_informality_rate_data current_year).length =
      2 * (current_year + 1 - 2014) := by
    simp [get_informality_rate_data]; omega
  rw [List.isEmpty_eq_false_iff_exists_mem]
  rcases List.exists_mem_of_length_pos (l := get_informality_rate_data current_year)
    (by omega) with ⟨x, hx⟩
  exact ⟨x, hx⟩

/-- The construction table of a refresh, written as a map over the
synthesized year range. -/
theorem update_construcao_rows_eq (current_year : ℕ) :
    update_construcao_rows current_year =
      (List.range' 2014 (current_year + 1 - 2014)).map
        (fun y => construcao_complete_row y (construcao_rate y)) := by
  unfold update_construcao_rows get_informality_rate_data
  rw [List.filter_append, List.filter_map, List.filter_map]
  have h1 : (List.filter
      ((fun r : InfRow => r.Setor == "Construção Civil") ∘
        fun y => (⟨y, "Construção Civil", construcao_rate y⟩ : InfRow))
      (List.range' 2014 (current_year + 1 - 2014))) =
      List.range' 2014 (current_year + 1 - 2014) :=
    List.filter_eq_self.mpr (fun a _ => rfl)
  have h2 : (List.filter
      ((fun r : InfRow => r.Setor == "Construção Civil") ∘
        fun y => (⟨y, "Atividades Imobiliárias", imobiliarias_rate y⟩ : InfRow))
      (List.range' 2014 (current_year + 1 - 2014))) = [] :=
    List.filter_eq_nil_iff.mpr (fun a _ => by simp [Function.comp])
  rw [h1, h2]
  simp only [List.map_append, List.map_map, List.map_nil, List.append_nil]
  rfl

/-- The real-estate table of a refresh, written as a map over the
synthesized year range. -/
theorem update_imobiliarias_rows_eq (current_year : ℕ) :
    update_imobiliarias_rows current_year =
      (List.range' 2014 (current_year + 1 - 2014)).map
        (fun y => imobiliarias_complete_row y (imobiliarias_rate y)) := by
  unfold update_imobiliarias_rows get_informality_rate_data
  rw [List.filter_append, List.filter_map, List.filter_map]
  have h1 : (List.filter
      ((fun r : InfRow => r.Setor == "Atividades Imobiliárias") ∘
        fun y => (⟨y, "Construção Civil", construcao_rate y⟩ : InfRow))
      (List.range' 2014 (current_year + 1 - 2014))) = [] :=
    List.filter_eq_nil_iff.mpr (fun a _ => by simp [Function.comp])
  have h2 : (List.filter
      ((fun r : InfRow => r.Setor == "Atividades Imobiliárias") ∘
        fun y => (⟨y, "Atividades Imobiliárias", imobiliarias_rate y⟩ : InfRow))
      (List.range' 2014 (current_year + 1 - 2014))) =
      List.range' 2014 (current_year + 1 - 2014) :=
    List.filter_eq_self.mpr (fun a _ => rfl)
  rw [h1, h2]
  simp only [List.map_append, List.map_map, List.map_nil, List.nil_append]
  rfl

/-- Years of the synthesized construction table. -/
theorem update_construcao_rows_map_Ano (current_year : ℕ) :
    (update_construcao_rows current_year).map (·.Ano) =
      List.range' 2014 (current_year + 1 - 2014) := by
  rw [update_construcao_rows_eq, List.map_map]
  show List.map (fun y : ℕ => y) _ = _
  simp

/-- Years of the synthesized real-estate table. -/
theorem update_imobiliarias_rows_map_Ano (current_year : ℕ) :
    (update_imobiliarias_rows current_year).map (·.Ano) =
      List.range' 2014 (current_year + 1 - 2014) := by
  rw [update_imobiliarias_rows_eq, List.map_map]
  show List.map (fun y : ℕ => y) _ = _
  simp

/-! ## C1: the year-range filter -/

/-- Claim C1: For every pair of sector tables and every inclusive year
range `[a, b]` with `a ≤ b`, `filter_data` returns exactly the records
whose year lies in the range, preserves the original order (in
particular ascending-year order), and filtering an already-filtered
pair by any superset range is a no-op. -/
theorem filter_data_year_range_correct
    (df_construcao df_imobiliarias : List SectorRow) (a b : ℕ) (hab : a ≤ b) :
    (∀ r, r ∈ (filter_data df_construcao df_imobiliarias a b).1 ↔
        r ∈ df_construcao ∧ a ≤ r.Ano ∧ r.Ano ≤ b) ∧
    (∀ r, r ∈ (filter_data df_construcao df_imobiliarias a b).2 ↔
        r ∈ df_imobiliarias ∧ a ≤ r.Ano ∧ r.Ano ≤ b) ∧
    (filter_data df_construcao df_imobiliarias a b).1.Sublist df_construcao ∧
    (filter_data df_construcao df_imobiliarias a b).2.Sublist df_imobiliarias ∧
    (df_construcao.Pairwise (fun r s => r.Ano ≤ s.Ano) →
      (filter_data df_construcao df_imobiliarias a b).1.Pairwise
        (fun r s => r.Ano ≤ s.Ano)) ∧
    (df_imobiliarias.Pairwise (fun r s => r.Ano ≤ s.Ano) →
      (filter_data df_construcao df_imobiliarias a b).2.Pairwise
        (fun r s => r.Ano ≤ s.Ano)) ∧
    (∀ a' b', a' ≤ a → b ≤ b' →
      filter_data (filter_data df_construcao df_imobiliarias a b).1
          (filter_data df_construcao df_imobiliarias a b).2 a' b' =
        filter_data df_construcao df_imobiliarias a b) := by
  refine ⟨?_, ?_, ?_, ?_, ?_, ?_, ?_⟩
  · intro r; simp [filter_data]
  · intro r; simp [filter_data]
  · exact List.filter_sublist _
  · exact List.filter_sublist _
  · exact fun h => h.sublist (List.filter_sublist _)
  · exact fun h => h.sublist (List.filter_sublist _)
  · intro a' b' ha hb
    unfold filter_data
    refine Prod.ext ?_ ?_ <;>
      · refine List.filter_eq_self.mpr ?_
        intro r hr
        rw [List.mem_filter] at hr
        have hr2 := hr.2
        simp only [decide_eq_true_eq] at hr2 ⊢
        omega

/-- Witness for C1 at a concrete table pair and range. -/
theorem filter_data_year_range_correct_witness :
    2014 ≤ 2015 ∧
    (filter_data [(⟨2014, 0, 0, 0, 0, 0, 0⟩ : SectorRow)]
        [(⟨2015, 0, 0, 0, 0, 0, 0⟩ : SectorRow)] 2014 2015).1.Sublist
      [(⟨2014, 0, 0, 0, 0, 0, 0⟩ : SectorRow)] :=
  ⟨by omega,
    (filter_data_year_range_correct [⟨2014, 0, 0, 0, 0, 0, 0⟩]
        [⟨2015, 0, 0, 0, 0, 0, 0⟩] 2014 2015 (by omega)).2.2.1⟩

/-! ## C3: the informality-rate clamp -/

/-- Claim C3: Every synthesized informality row respects the per-sector
band: construction rates never exceed 65, real-estate rates never fall
below 35. -/
theorem informality_rate_clamped (current_year : ℕ) (r : InfRow)
    (hr : r ∈ get_informality_rate_data current_year) :
    (r.Setor = "Construção Civil" → r.Taxa_Informalidade ≤ 65) ∧
    (r.Setor = "Atividades Imobiliárias" → 35 ≤ r.Taxa_Informalidade) := by
  unfold get_informality_rate_data at hr
  simp only [List.mem_append, List.mem_map] at hr
  rcases hr with ⟨y, _, rfl⟩ | ⟨y, _, rfl⟩
  · exact ⟨fun _ => min_le_right _ _, fun h => by simp at h⟩
  · exact ⟨fun h => by simp at h, fun _ => le_max_right _ _⟩

/-- Witness for C3 at the concrete year 2014. -/
theorem informality_rate_clamped_witness :
    (⟨2014, "Construção Civil", construcao_rate 2014⟩ : InfRow) ∈
        get_informality_rate_data 2014 ∧
    ((⟨2014, "Construção Civil", construcao_rate 2014⟩ : InfRow).Setor =
          "Construção Civil" →
      (⟨2014, "Construção Civil", construcao_rate 2014⟩ :
          InfRow).Taxa_Informalidade ≤ 65) := by
  have hm : (⟨2014, "Construção Civil", construcao_rate 2014⟩ : InfRow) ∈
      get_informality_rate_data 2014 := by
    unfold get_informality_rate_data
    refine List.mem_append_left _ ?_
    exact List.mem_map.mpr ⟨2014, List.mem_range'_1.mpr (by omega), rfl⟩
  exact ⟨hm, (informality_rate_clamped 2014 _ hm).1⟩

/-! ## C10: the pre-rounding category split sums to the total -/

/-- Claim C10: Before per-field rounding, employed-with-contract,
employed-without-contract and self-employed sum exactly to the total,
in both sectors, because self-employed is defined as total minus the
other two categories. -/
theorem synthesized_categories_sum_to_total (year : ℕ) (taxa : ℚ) :
    construcao_com_carteira year taxa + construcao_sem_carteira year taxa +
        construcao_conta_propria year taxa = construcao_total_ocupados year ∧
    imobiliarias_com_carteira year taxa + imobiliarias_sem_carteira year taxa +
        imobiliarias_conta_propria year taxa =
      imobiliarias_total_ocupados year := by
  unfold construcao_conta_propria imobiliarias_conta_propria
  exact ⟨by ring, by ring⟩

/-! ## C4: the self-employed formula -/

/-- The synthesized self-employed share is not `total × 0.25`
(construction) / `total × 0.15` (real estate): for the construction
years 2014-2016, whose totals are `[7.0, 7.1, 7.2]`, the stored
self-employed values are `[3.6, 3.6, 3.7]`, not `[1.75, 1.775, 1.8]`;
already before rounding, the year-2014 value is `3.5532 ≠ 7.0 × 0.25`. -/
theorem conta_propria_not_total_times_quarter :
    (update_construcao_rows 2016).map (·.total_ocupados) = [7.0, 7.1, 7.2] ∧
    (update_construcao_rows 2016).map (·.conta_propria) = [3.6, 3.6, 3.7] ∧
    (update_construcao_rows 2016).map (·.conta_propria) ≠ [1.75, 1.775, 1.8] ∧
    construcao_conta_propria 2014 (construcao_rate 2014) ≠
      construcao_total_ocupados 2014 * 0.25 := by
  have h : update_construcao_rows 2016 =
      [construcao_complete_row 2014 (construcao_rate 2014),
        construcao_complete_row 2015 (construcao_rate 2015),
        construcao_complete_row 2016 (construcao_rate 2016)] := rfl
  have hr14 : construcao_rate 2014 = 53.8 := by norm_num [construcao_rate]
  have hr15 : construcao_rate 2015 = 56.3 := by norm_num [construcao_rate]
  have hr16 : construcao_rate 2016 = 54.8 := by norm_num [construcao_rate]
  have hconta : (update_construcao_rows 2016).map (·.conta_propria) =
      [3.6, 3.6, 3.7] := by
    rw [h]
    simp only [List.map_cons, List.map_nil, construcao_complete_row]
    rw [hr14, hr15, hr16]
    norm_num [round1, roundHalfEven, construcao_conta_propria,
      construcao_com_carteira, construcao_sem_carteira,
      construcao_total_ocupados]
  refine ⟨?_, hconta, ?_, ?_⟩
  · rw [h]
    simp only [List.map_cons, List.map_nil, construcao_complete_row]
    norm_num [round1, roundHalfEven, construcao_total_ocupados]
  · rw [hconta]
    intro hc
    simp only [List.cons.injEq] at hc
    exact absurd hc.1 (by norm_num)
  · rw [hr14]
    norm_num [construcao_conta_propria, construcao_com_carteira,
      construcao_sem_carteira, construcao_total_ocupados]

/-- Claim C4, amended: The synthesized self-employed value before
rounding equals `total × (0.4 + 0.2·taxa/100)` for construction and
`total × (0.3 + 0.4·taxa/100)` for real estate (equivalently,
`total − com_carteira − sem_carteira`), not `total × 0.25` /
`total × 0.15`. -/
theorem conta_propria_formula (year : ℕ) (taxa : ℚ) :
    construcao_conta_propria year taxa =
        construcao_total_ocupados year * (0.4 + 0.2 * (taxa / 100)) ∧
    imobiliarias_conta_propria year taxa =
        imobiliarias_total_ocupados year * (0.3 + 0.4 * (taxa / 100)) := by
  unfold construcao_conta_propria construcao_com_carteira
    construcao_sem_carteira imobiliarias_conta_propria
    imobiliarias_com_carteira imobiliarias_sem_carteira
  exact ⟨by ring, by ring⟩

/-! ## C2: the refresh is not all-or-nothing -/

/-- A refresh execution that fails at the second `to_csv` call has
already replaced the construction `_updated` file: the store differs
from the prior store even though the refresh failed, refuting
"either both tables are written or neither is". -/
theorem update_local_data_not_all_or_nothing :
    (update_local_data fs₀ 2014 .atWrite2).2 = false ∧
    (update_local_data fs₀ 2014 .atWrite2).1 ≠ fs₀ ∧
    (update_local_data fs₀ 2014 .atWrite2).1.tabela1_construcao_civil_updated =
      some (update_construcao_rows 2014) ∧
    (update_local_data fs₀ 2014
        .atWrite2).1.tabela2_atividades_imobiliarias_updated = none := by
  have h : update_local_data fs₀ 2014 .atWrite2 =
      (⟨none, none, some (update_construcao_rows 2014), none, none⟩, false) :=
    rfl
  refine ⟨by rw [h], ?_, by rw [h], by rw [h]⟩
  rw [h]
  intro hc
  have := congrArg FS.tabela1_construcao_civil_updated hc
  simp [fs₀] at this

/-- Claim C2, amended: A refresh failure occurring before the first
write (during fetching or normalization) or at the first write leaves
the store untouched; the real-estate `_updated` file and every
non-`_updated` file are unchanged by any failed refresh; but a failure
at the second write leaves the construction `_updated` file already
replaced.  On success both `_updated` files are written. -/
theorem update_local_data_write_effects (fs : FS) (current_year : ℕ)
    (fp : FailPoint) :
    ((update_local_data fs current_year fp).2 = true →
      (update_local_data fs current_year fp).1 =
        { fs with
            tabela1_construcao_civil_updated :=
              some (update_construcao_rows current_year)
            tabela2_atividades_imobiliarias_updated :=
              some (update_imobiliarias_rows current_year) }) ∧
    ((update_local_data fs current_year fp).2 = false →
      (update_local_data fs current_year
          fp).1.tabela2_atividades_imobiliarias_updated =
        fs.tabela2_atividades_imobiliarias_updated ∧
      (update_local_data fs current_year fp).1.tabela1_construcao_civil =
        fs.tabela1_construcao_civil ∧
      (update_local_data fs current_year fp).1.tabela2_atividades_imobiliarias =
        fs.tabela2_atividades_imobiliarias ∧
      (update_local_data fs current_year fp).1.fgts_arrecadacao =
        fs.fgts_arrecadacao ∧
      (fp ≠ .atWrite2 → (update_local_data fs current_year fp).1 = fs)) := by
  cases fp with
  | beforeWrites =>
    exact ⟨fun h => by simp [update_local_data] at h,
      fun _ => ⟨rfl, rfl, rfl, rfl, fun _ => rfl⟩⟩
  | atWrite1 =>
    refine ⟨fun h => ?_, fun _ => ?_⟩
    · have hfalse : (update_local_data fs current_year .atWrite1).2 = false := by
        simp [update_local_data]
      rw [h] at hfalse
      exact Bool.noConfusion hfalse
    · have hres : (update_local_data fs current_year .atWrite1).1 = fs := by
        simp [update_local_data]
      rw [hres]
      exact ⟨rfl, rfl, rfl, rfl, fun _ => rfl⟩
  | atWrite2 =>
    refine ⟨fun h => ?_, fun _ => ?_⟩
    · have hfalse : (update_local_data fs current_year .atWrite2).2 = false := by
        simp only [update_local_data]
        split <;> rfl
      rw [h] at hfalse
      exact Bool.noConfusion hfalse
    · refine ⟨?_, ?_, ?_, ?_, fun hne => absurd rfl hne⟩ <;>
        · simp only [update_local_data]
          split <;> rfl
  | noFail =>
    by_cases he : (get_informality_rate_data current_year).isEmpty = true
    · refine ⟨fun h => ?_, fun _ => ?_⟩
      · simp [update_local_data, he] at h
      · simp [update_local_data, he]
    · refine ⟨fun _ => ?_, fun h => ?_⟩
      · simp [update_local_data, he]
      · simp [update_local_data, he] at h

/-- Witness for C2's amended theorem: a failure at the first write
leaves the concrete empty store unchanged. -/
theorem update_local_data_write_effects_witness :
    (update_local_data fs₀ 2014 .atWrite1).1 = fs₀ :=
  (((update_local_data_write_effects fs₀ 2014 .atWrite1).2
    (by rfl)).2.2.2.2) (by simp)

/-! ## C6: missing datasets on load -/

/-- Claim C6: If both sector files of the requested variant are missing,
`load_data` fails and returns no table; if only the FGTS file is
missing, both sector tables are returned, the FGTS table is absent
without an error, and the combined PJ/informal table drops the FGTS
column. -/
theorem load_data_missing_files (fs : FS) (use_updated : Bool) :
    ((if use_updated then fs.tabela1_construcao_civil_updated
        else fs.tabela1_construcao_civil) = none →
      (if use_updated then fs.tabela2_atividades_imobiliarias_updated
        else fs.tabela2_atividades_imobiliarias) = none →
      load_data fs use_updated = none) ∧
    (∀ c i,
      (if use_updated then fs.tabela1_construcao_civil_updated
        else fs.tabela1_construcao_civil) = some c →
      (if use_updated then fs.tabela2_atividades_imobiliarias_updated
        else fs.tabela2_atividades_imobiliarias) = some i →
      fs.fgts_arrecadacao = none →
      load_data fs use_updated = some (c, i, none, use_updated) ∧
      (pj_informal_combined c none).2 = none) := by
  constructor
  · intro h1 h2
    simp only [load_data, h1, h2]
  · intro c i h1 h2 h3
    refine ⟨?_, rfl⟩
    simp only [load_data, h1, h2, h3]

/-- Witness for C6: loading the "updated" variant from the empty store
fails with no table returned. -/
theorem load_data_missing_files_witness :
    load_data fs₀ true = none :=
  (load_data_missing_files fs₀ true).1 rfl rfl

/-! ## C7: years after a successful refresh -/

/-- Claim C7: After a successful refresh, loading the "updated" variant
returns exactly the two freshly synthesized tables, and their years
cover exactly the contiguous range `[2014, current_year]`, one record
per year, strictly ascending. -/
theorem refresh_then_load_years (fs : FS) (current_year : ℕ)
    (hcy : 2014 ≤ current_year) :
    (update_local_data fs current_year .noFail).2 = true ∧
    load_data (update_local_data fs current_year .noFail).1 true =
      some (update_construcao_rows current_year,
        update_imobiliarias_rows current_year, fs.fgts_arrecadacao, true) ∧
    (update_construcao_rows current_year).map (·.Ano) =
      List.range' 2014 (current_year + 1 - 2014) ∧
    (update_imobiliarias_rows current_year).map (·.Ano) =
      List.range' 2014 (current_year + 1 - 2014) ∧
    (∀ y, y ∈ (update_construcao_rows current_year).map (·.Ano) ↔
      2014 ≤ y ∧ y ≤ current_year) ∧
    (∀ y, y ∈ (update_imobiliarias_rows current_year).map (·.Ano) ↔
      2014 ≤ y ∧ y ≤ current_year) ∧
    ((update_construcao_rows current_year).map (·.Ano)).Pairwise (· < ·) ∧
    ((update_imobiliarias_rows current_year).map (·.Ano)).Pairwise (· < ·) := by
  have hne := get_informality_rate_data_ne_nil current_year hcy
  have hupd : update_local_data fs current_year .noFail =
      ({ fs with
          tabela1_construcao_civil_updated :=
            some (update_construcao_rows current_year)
          tabela2_atividades_imobiliarias_updated :=
            some (update_imobiliarias_rows current_year) }, true) := by
    simp [update_local_data, hne]
  refine ⟨by rw [hupd], ?_, update_construcao_rows_map_Ano _,
    update_imobiliarias_rows_map_Ano _, ?_, ?_, ?_, ?_⟩
  · rw [hupd]
    simp [load_data]
  · intro y
    rw [update_construcao_rows_map_Ano, List.mem_range'_1]
    omega
  · intro y
    rw [update_imobiliarias_rows_map_Ano, List.mem_range'_1]
    omega
  · rw [update_construcao_rows_map_Ano]
    exact List.pairwise_lt_range' _ _
  · rw [update_imobiliarias_rows_map_Ano]
    exact List.pairwise_lt_range' _ _

/-- Witness for C7 at the concrete year 2014 and the empty store. -/
theorem refresh_then_load_years_witness :
    2014 ≤ 2014 ∧
    (update_local_data fs₀ 2014 .noFail).2 = true ∧
    load_data (update_local_data fs₀ 2014 .noFail).1 true =
      some (update_construcao_rows 2014, update_imobiliarias_rows 2014,
        fs₀.fgts_arrecadacao, true) :=
  ⟨le_refl _, (refresh_then_load_years fs₀ 2014 (le_refl _)).1,
    (refresh_then_load_years fs₀ 2014 (le_refl _)).2.1⟩

/-! ## C8: the rolling average -/

/-- Claim C8: The window-6 rolling mean is parallel to its input series,
defined at each point with at least 6 trailing observations as the mean
of the trailing 6 values, undefined at the first 5 points; on any
12-point series exactly 7 values are defined and the 5 leading ones are
undefined. -/
theorem rolling_mean_window_properties (xs : List ℚ) :
    (rolling_mean 6 xs).length = xs.length ∧
    (∀ i, i < xs.length → 5 ≤ i →
      (rolling_mean 6 xs)[i]? =
        some (some (((xs.drop (i - 5)).take 6).sum / 6))) ∧
    (∀ i, i < xs.length → i < 5 → (rolling_mean 6 xs)[i]? = some none) ∧
    (xs.length = 12 →
      (rolling_mean 6 xs).countP (fun o => o.isSome) = 7 ∧
      (rolling_mean 6 xs).take 5 = [none, none, none, none, none]) := by
  refine ⟨by simp [rolling_mean], ?_, ?_, ?_⟩
  · intro i hi h5
    unfold rolling_mean
    rw [List.getElem?_map, List.getElem?_range hi]
    simp only [Option.map_some']
    rw [if_pos (by omega), List.drop_take]
    have e1 : i + 1 - 6 = i - 5 := by omega
    have e2 : i + 1 - (i + 1 - 6) = 6 := by omega
    rw [e2, e1]
    norm_num
  · intro i hi h5
    unfold rolling_mean
    rw [List.getElem?_map, List.getElem?_range hi]
    simp only [Option.map_some']
    rw [if_neg (by omega)]
  · intro h12
    unfold rolling_mean
    rw [h12]
    constructor
    · rw [List.countP_map]
      rw [List.countP_congr (q := fun i => decide (6 ≤ i + 1)) ?_]
      · decide
      · intro a _
        by_cases h : 6 ≤ a + 1 <;> simp [h] <;> omega
    · rw [← List.map_take, show (List.range 12).take 5 = [0, 1, 2, 3, 4] from rfl]
      simp

/-- Witness for C8 on a concrete 12-point series. -/
theorem rolling_mean_window_properties_witness :
    (rolling_mean 6 xs12).countP (fun o => o.isSome) = 7 ∧
    (rolling_mean 6 xs12).take 5 = [none, none, none, none, none] :=
  (rolling_mean_window_properties xs12).2.2.2 rfl

/-! ## C9: sentinel values are dropped, output sorted by year -/

/-- Claim C9: If every occurrence of a year in the raw payload is falsy
or one of the sentinels `"..."` / `"-"`, no record for that year
appears in the output of `_process_employment_data`; and the produced
records are ordered ascending by year. -/
theorem process_employment_drops_missing (raw : List Item)
    (sector_code : String) (y : ℤ)
    (hdrop : ∀ pv ∈ allEntries raw, parseInt ((pv.1).take 4) = some y →
      pyTruthy pv.2 = false ∨ pv.2 = PyVal.str "..." ∨ pv.2 = PyVal.str "-") :
    (∀ row ∈ _process_employment_data raw sector_code, row.Ano ≠ y) ∧
    (_process_employment_data raw sector_code).Pairwise rowLe := by
  constructor
  · intro row hrow hAno
    unfold _process_employment_data at hrow
    rw [List.mem_insertionSort] at hrow
    simp only [List.mem_flatMap, List.mem_filterMap] at hrow
    obtain ⟨item, hitem, r, hr, s, hs, pv, hpv, hsome⟩ := hrow
    have hmem : pv ∈ allEntries raw := by
      unfold allEntries
      simp only [List.mem_flatMap]
      exact ⟨item, hitem, r, hr, s, hs, hpv⟩
    by_cases hc : pyTruthy pv.2 = true ∧ pv.2 ≠ PyVal.str "..." ∧
        pv.2 ≠ PyVal.str "-"
    · rw [if_pos hc] at hsome
      cases hpi : parseInt ((pv.1).take 4) with
      | none => simp [hpi] at hsome
      | some ano =>
        cases hpf : pyFloat pv.2 with
        | none => simp [hpi, hpf] at hsome
        | some v =>
          rw [hpi, hpf] at hsome
          have hrow_eq :
              (⟨ano, s.localidade, sector_code, v, pv.1⟩ : ProcessedRow) =
                row := Option.some.inj hsome
          have hano : ano = y := by
            have := congrArg ProcessedRow.Ano hrow_eq
            simpa [hAno] using this
          rcases hdrop pv hmem (by rw [hpi, hano]) with h | h | h
          · exact Bool.noConfusion (h ▸ hc.1)
          · exact hc.2.1 h
          · exact hc.2.2 h
    · rw [if_neg hc] at hsome
      exact Option.noConfusion hsome
  · unfold _process_employment_data
    exact List.sorted_insertionSort rowLe _

/-- Witness for C9 on a concrete sentinel-only payload. -/
theorem process_employment_drops_missing_witness :
    (∀ row ∈ _process_employment_data rawSample "F", row.Ano ≠ 2020) ∧
    (_process_employment_data rawSample "F").Pairwise rowLe :=
  process_employment_drops_missing rawSample "F" 2020 (by decide)

/-! ## C5: the central-bank fetch (modelled from the spec) -/

/-- A successful parse preserves the number of `{data, valor}` pairs. -/
theorem parseBCBEntries_length : ∀ (l : List BCBRaw) (os : List BCBObs),
    parseBCBEntries l = some os → os.length = l.length
  | [], os, h => by
    simp only [parseBCBEntries] at h
    cases h
    rfl
  | e :: es, os, h => by
    simp only [parseBCBEntries] at h
    cases h1 : parseBCBEntry e with
    | none => rw [h1] at h; exact Option.noConfusion h
    | some o =>
      cases h2 : parseBCBEntries es with
      | none => rw [h1, h2] at h; exact Option.noConfusion h
      | some os' =>
        rw [h1, h2] at h
        cases h
        simp [parseBCBEntries_length es os' h2]

/-- Claim C5, spec-modelled (since `fetch_bcb_data` is absent from the
repository sources) The central-bank fetch returns, on every successful
call, a table ordered by date with one coerced observation per raw
`{data, valor}` pair, and it fails only with `NetworkError` or
`ParseError`; a missing response is a `NetworkError`. -/
theorem fetch_bcb_data_spec (response : Option (List BCBRaw)) :
    (∀ res, fetch_bcb_data response = .ok res →
      res.Pairwise obsLe ∧
      ∃ entries, response = some entries ∧ res.length = entries.length) ∧
    (∀ e, fetch_bcb_data response = .error e →
      e = BCBError.NetworkError ∨ e = BCBError.ParseError) ∧
    (response = none →
      fetch_bcb_data response = .error BCBError.NetworkError) := by
  refine ⟨?_, ?_, ?_⟩
  · intro res hres
    cases response with
    | none => exact Except.noConfusion hres
    | some entries =>
      simp only [fetch_bcb_data] at hres
      cases hp : parseBCBEntries entries with
      | none => rw [hp] at hres; exact Except.noConfusion hres
      | some obs =>
        rw [hp] at hres
        injection hres with h
        subst h
        refine ⟨List.sorted_insertionSort obsLe obs, entries, rfl, ?_⟩
        rw [(List.perm_insertionSort obsLe obs).length_eq]
        exact parseBCBEntries_length entries obs hp
  · intro e _
    cases e with
    | NetworkError => exact Or.inl rfl
    | ParseError => exact Or.inr rfl
  · intro h
    subst h
    rfl

/-- Witness for C5 on a concrete two-entry response. -/
theorem fetch_bcb_data_spec_witness :
    bcbSorted.Pairwise obsLe ∧
    ∃ entries, (some bcbSample : Option (List BCBRaw)) = some entries ∧
      bcbSorted.length = entries.length :=
  (fetch_bcb_data_spec (some bcbSample)).1 bcbSorted (by rfl)

end Economia
